import Mathlib

set_option maxHeartbeats 1000000

/-!
Shallow embedding of `src/availability_grade.py` (v14), a chunked,
concurrency-bounded Amazon availability/rating scraper built on Playwright.

The embedding follows the source file:
* configuration constants (lines 42-49);
* the regex vocabularies `CAPTCHA_RE` / `NOT_FOUND_RE` (lines 52-53),
  modelled as case-folded substring search over the fixed word lists
  of the two alternation regexes;
* `extract_availability` / `extract_reviews_info` (lines 77-130), with the
  DOM queries and the numeric regex/float parsing abstracted to their
  outcomes (the spec treats DOM-selector extraction as an external
  collaborator);
* `is_page_blocked` (151-159) and `handle_blocking_page` (161-202), with the
  Playwright page queries abstracted to a `BlockEnv` describing what the
  live page would answer;
* `scrape_one` (206-264): the per-target retry loop, navigation outcome
  handling, the 2-round block-recovery loop and the sentinel results.  The
  nondeterministic environment of each attempt (navigation outcome, page
  content, recovery outcomes, extraction DOM) is an explicit `AttemptEnv`
  argument; the function additionally returns the ordered trace of the
  observable events (jitter sleep, request, backoff sleep, block checks and
  clearing attempts) so that temporal claims can be stated;
* `chunker` / `process_chunk` / the chunk loop of `main_async` (268-311),
  over lists (`asyncio.gather` keeps results positionally aligned with the
  submitted tasks, so a chunk's results are its urls mapped in order);
* the semaphore discipline of `scrape_one` (211-258): an interleaving
  state machine over worker program counters, where the success and
  not-found paths close the browser context before `async with sem`
  releases the permit, while the exception path releases the permit when
  the `async with` block unwinds and only then closes the context in the
  `except` handler.
-/

-- ──────────────────── configuration (lines 42-49) ────────────────────

def CHUNK_SIZE : Nat := 100

def MAX_CONCURRENCY : Nat := 5

def MAX_RETRIES : Nat := 3

-- ──────────── string search for the fixed regex vocabularies ────────────

/-- Case folding for the characters that occur in the scraper's regex
vocabularies: ASCII letters via `Char.toLower`, plus the accented capital
`'É'` (the only accented letter of the vocabularies), modelling
`re.IGNORECASE` on the relevant alphabet. -/
def foldChar (c : Char) : Char := if c = 'É' then 'é' else c.toLower

/-- Case-fold a whole string. -/
def caseFold (s : String) : String := String.mk (s.data.map foldChar)

/-- `leadsWith w l` is true when `w` is an initial segment of `l`. -/
def leadsWith : List Char → List Char → Bool
  | [], _ => true
  | _ :: _, [] => false
  | a :: as, b :: bs => a == b && leadsWith as bs

/-- `hasSub w l` is true when `w` occurs contiguously inside `l`. -/
def hasSub (w : List Char) : List Char → Bool
  | [] => leadsWith w []
  | c :: cs => leadsWith w (c :: cs) || hasSub w cs

/-- Case-sensitive substring test (Python's `in` on strings). -/
def strContains (hay needle : String) : Bool := hasSub needle.data hay.data

/-- `re.search` of an alternation of literal words under `re.IGNORECASE`:
some word of `words` occurs in the case-folded input. -/
def reSearch (words : List String) (s : String) : Bool :=
  words.any (fun w => strContains (caseFold s) w)

/-- The alternatives of `CAPTCHA_RE` (line 52). -/
def CAPTCHA_WORDS : List String :=
  ["captcha", "robot", "verify", "attention", "vérification"]

/-- The alternatives of `NOT_FOUND_RE` (line 53). -/
def NOT_FOUND_WORDS : List String :=
  ["page introuvable", "page non trouvée", "not found",
   "ne peut pas trouver cette page", "désolé"]

/-- `NOT_FOUND_RE.search(title)` (line 227). -/
def not_found_title (title : String) : Bool := reSearch NOT_FOUND_WORDS title

-- ──────────────────── page classification (151-159) ────────────────────

/-- The two BeautifulSoup queries `is_page_blocked` makes on the HTML body,
abstracted to their outcomes: a `form` whose `action` matches
`validateCaptcha`, and an `img` whose `src` matches `/captcha/`. -/
structure Html where
  hasCaptchaForm : Bool
  hasCaptchaImg : Bool
deriving DecidableEq

/-- `is_page_blocked(html, page_title)` (lines 151-159): blocked when the
title matches `CAPTCHA_RE`, or the HTML has a captcha-validation form, or a
captcha image. -/
def is_page_blocked (html : Html) (page_title : String) : Bool :=
  if reSearch CAPTCHA_WORDS page_title then true
  else if html.hasCaptchaForm then true
  else if html.hasCaptchaImg then true
  else false

/-- A rendered page as the pair `(content, title)` that `scrape_one` reads
at lines 235-236. -/
structure PageState where
  html : Html
  title : String
deriving DecidableEq

-- ──────────────────── block recovery (161-202) ────────────────────

/-- Outcome of `handle_blocking_page`: `ret b` is a normal `return b`;
`raised` is an exception escaping the function (only possible from the
un-guarded `fill`/`click` of lines 187-188, which are outside any `try`). -/
inductive HandleRes where
  | raised
  | ret (b : Bool)
deriving DecidableEq

/-- The answers the live page would give to the queries of
`handle_blocking_page`, abstracted to their outcomes:
`continueVisible`: is the continue/proceed/continuer button visible (162-163);
`clickOk`: does clicking it and waiting succeed (166-171);
`captchaVisible`: is an `img[src*='/captcha/']` visible (173-174);
`ocr`: the OCR solution, `none` when `AmazonCaptcha...solve()` raises (180-185);
`fillClickOk`: do the un-guarded `fill` and submit click succeed (187-188);
`afterSubmit`: the page after submission, `none` on the wait timeout (190-202). -/
structure BlockEnv where
  continueVisible : Bool
  clickOk : Bool
  captchaVisible : Bool
  ocr : Option String
  fillClickOk : Bool
  afterSubmit : Option PageState
deriving DecidableEq

/-- `handle_blocking_page(page)` (lines 161-202). -/
def handle_blocking_page (e : BlockEnv) : HandleRes :=
  if e.continueVisible then
    -- simple challenge: click + wait, exceptions caught → return False
    .ret e.clickOk
  else if !e.captchaVisible then
    -- "Aucun blocage de type CAPTCHA image détecté." → return False
    .ret false
  else
    match e.ocr with
    | none => .ret false            -- OCR failure caught → return False
    | some _ =>
      if !e.fillClickOk then .raised  -- fill/click are outside any try
      else
        match e.afterSubmit with
        | none => .ret false          -- timeout after submit → return False
        | some ps => .ret (!is_page_blocked ps.html ps.title)

-- ──────────────────── extraction (77-130) ────────────────────

/-- A value of one of the three result columns: a string (availability text
or a sentinel), a float (stars) or an integer (review count), mirroring the
mixed Python values. -/
inductive FieldVal where
  | str (s : String)
  | num (q : ℚ)
  | cnt (n : Nat)
deriving DecidableEq

/-- The per-URL result dict of `scrape_one` (lines 226, 230, 254, 263). -/
structure ExtractionResult where
  availability : FieldVal
  average_stars : FieldVal
  total_reviews : FieldVal
deriving DecidableEq

/-- The result of lines 226/230: every field `"Page n'existe pas"`. -/
def notFoundRecord : ExtractionResult :=
  ⟨.str "Page n'existe pas", .str "Page n'existe pas", .str "Page n'existe pas"⟩

/-- The result of lines 263/264: every field `"Error"`. -/
def errorRecord : ExtractionResult :=
  ⟨.str "Error", .str "Error", .str "Error"⟩

/-- The selector priority list of `extract_availability` (lines 78-87). -/
def selectors_to_try : List String :=
  ["#availability .a-color-success",
   "#availability .a-color-error",
   "#availability > span:first-of-type",
   "#desktop_buybox_feature_div #availability span",
   "#fodcx_feature_div #fod-cx-message-with-learn-more span:first-child",
   "#mir-layout-DELIVERY_BLOCK-slot-PRIMARY_DELIVERY_MESSAGE_LARGE",
   "#outOfStock span.a-color-price",
   "#outOfStockBuyBox_feature_div span.a-color-price"]

/-- `extract_availability(soup)` (lines 77-93).  The soup is abstracted to
the query function `q`: `q sel` is `select_one(sel).get_text(strip=True)`
when the element exists, else `none`.  First selector giving a non-empty
text not containing "Lire la suite" wins; fallback `"N/A"`. -/
def extract_availability (q : String → Option String) : String :=
  go selectors_to_try
where
  go : List String → String
  | [] => "N/A"
  | sel :: rest =>
    match q sel with
    | none => go rest
    | some t =>
      if t = "" then go rest
      else if strContains t "Lire la suite" then go rest
      else t

/-- The DOM facts `extract_reviews_info` queries (lines 95-130), abstracted
to their outcomes: is the reviews section present; the parsed stars value
from the `#acrPopover` title regex + `float()` (`none` on absence, no
regex match, or `ValueError`); the parsed stars from the `span.a-icon-alt`
fallback; the review count digits from `#acrCustomerReviewText` (`none`
on absence or no digits). -/
structure ReviewsDom where
  hasSection : Bool
  popoverStars : Option ℚ
  spanStars : Option ℚ
  reviewDigits : Option Nat
deriving DecidableEq

/-- `extract_reviews_info(soup)` (lines 95-130): stars from the popover
title, else from the icon-alt span, else the `"Produit avec aucune note"`
sentinel; review count independently, with the same sentinel. -/
def extract_reviews_info (d : ReviewsDom) : FieldVal × FieldVal :=
  if !d.hasSection then
    (.str "Produit avec aucune note", .str "Produit avec aucune note")
  else
    let stars : FieldVal :=
      match d.popoverStars with
      | some q => .num q
      | none =>
        match d.spanStars with
        | some q => .num q
        | none => .str "Produit avec aucune note"
    let reviews : FieldVal :=
      match d.reviewDigits with
      | some n => .cnt n
      | none => .str "Produit avec aucune note"
    (stars, reviews)

-- ──────────────────── the per-target worker (206-264) ────────────────────

/-- The environment of one attempt of `scrape_one`'s retry loop: everything
the outside world decides during that attempt.
`setupOk`: `new_context` / `new_page` / `stealth_async` do not raise (212-218);
`nav`: `page.goto` outcome (221): `none` = raises (timeout/navigation error),
`some resp` = returns, where `resp` is `None` or carries the HTTP status;
`navTitle`: `page.title()` at the not-found check (227);
`page1`/`page2`: `(content, title)` read at each round of the block loop
(235-236); `block1`/`block2`: the recovery environment of each round;
`avail`: the final page's availability DOM (246-249);
`reviews`: the final page's reviews DOM (250). -/
structure AttemptEnv where
  setupOk : Bool
  nav : Option (Option Nat)
  navTitle : String
  page1 : PageState
  block1 : BlockEnv
  page2 : PageState
  block2 : BlockEnv
  avail : String → Option String
  reviews : ReviewsDom

/-- Observable events of `scrape_one`, in program order: the
`WAIT_BETWEEN_REQUESTS` jitter sleep (207), a `page.goto` request (221),
the 5-10s retry backoff sleep (260), a block classification (237) and a
clearing attempt (239). -/
inductive Ev where
  | jitter
  | navReq
  | backoff
  | checkBlock (b : Bool)
  | clear (r : HandleRes)
deriving DecidableEq

/-- Outcome of one attempt: a `return` from inside the `try` (success or
not-found sentinel), or an exception caught by the `except` of line 256. -/
inductive AttemptOutcome where
  | returned (r : ExtractionResult)
  | failed
deriving DecidableEq

/-- The successful extraction result built at lines 246-254. -/
def mkSuccess (env : AttemptEnv) : ExtractionResult :=
  let avail := extract_availability env.avail
  let sr := extract_reviews_info env.reviews
  ⟨.str avail, sr.1, sr.2⟩

/-- The 2-round block-recovery loop and final extraction of one attempt
(lines 234-254): `for _ in range(2)`, each round classifies the page, a
blocked round calls `handle_blocking_page` and raises unless it returns
`True`; leaving the loop without `break` (both rounds blocked) raises
"Blocage persistant"; `break` (an unblocked classification) falls through
to extraction. -/
def blockPhase (env : AttemptEnv) : AttemptOutcome × List Ev :=
  if is_page_blocked env.page1.html env.page1.title then
    match handle_blocking_page env.block1 with
    | .raised => (.failed, [.checkBlock true, .clear .raised])
    | .ret false => (.failed, [.checkBlock true, .clear (.ret false)])
    | .ret true =>
      if is_page_blocked env.page2.html env.page2.title then
        -- round 2 blocked: the handler runs, but whatever it does the
        -- attempt raises (clearing failure, or loop exhaustion at 244-245)
        (.failed, [.checkBlock true, .clear (.ret true), .checkBlock true,
                   .clear (handle_blocking_page env.block2)])
      else
        (.returned (mkSuccess env),
         [.checkBlock true, .clear (.ret true), .checkBlock false])
  else
    (.returned (mkSuccess env), [.checkBlock false])

/-- One attempt of the retry loop (the body of lines 208-254): session
setup, navigation, the status / title not-found checks, cookie consent
(best-effort, never raises and never changes control flow: 134-149, 232),
then the block loop and extraction. -/
def runAttempt (env : AttemptEnv) : AttemptOutcome × List Ev :=
  if !env.setupOk then (.failed, [])
  else
    match env.nav with
    | none => (.failed, [.navReq])
    | some resp =>
      let bad : Bool := match resp with
        | some s => decide (400 ≤ s)
        | none => false
      if bad then (.returned notFoundRecord, [.navReq])
      else if not_found_title env.navTitle then
        (.returned notFoundRecord, [.navReq])
      else
        let p := blockPhase env
        (p.1, .navReq :: p.2)

/-- `range(1, MAX_RETRIES + 1)` — the attempt numbers of the retry loop. -/
def pyRange1 (n : Nat) : List Nat := (List.range n).map (· + 1)

/-- The retry loop of `scrape_one` (lines 208-264) over the remaining
attempt numbers: a returning attempt stops the loop; a failed attempt with
`attempt < MAX_RETRIES` sleeps the backoff and continues; a failed last
attempt returns the all-`"Error"` record (263); the `return` after the loop
(264) is the `[]` case. -/
def scrapeAttempts (envs : Nat → AttemptEnv) : List Nat → ExtractionResult × List Ev
  | [] => (errorRecord, [])
  | a :: rest =>
    match runAttempt (envs a) with
    | (.returned r, evs) => (r, evs)
    | (.failed, evs) =>
      if a < MAX_RETRIES then
        ((scrapeAttempts envs rest).1,
         evs ++ Ev.backoff :: (scrapeAttempts envs rest).2)
      else (errorRecord, evs)

/-- `scrape_one(browser, url, sem)` (lines 206-264): the jitter sleep of
line 207 runs once, before the retry loop.  `envs n` is the environment the
world presents to attempt number `n`. -/
def scrape_one (envs : Nat → AttemptEnv) : ExtractionResult × List Ev :=
  let p := scrapeAttempts envs (pyRange1 MAX_RETRIES)
  (p.1, Ev.jitter :: p.2)

-- ──────────────── chunking and aggregation (268-311) ────────────────

/-- `range(0, stop, step)` for `step > 0`. -/
def pyRange (stop step : Nat) : List Nat :=
  (List.range ((stop + step - 1) / step)).map (fun j => j * step)

/-- `chunker(df, size)` (lines 276-277): the slices
`df.iloc[i:i + size]` for `i in range(0, len(df), size)`. -/
def chunker {α : Type} (df : List α) (size : Nat) : List (List α) :=
  (pyRange df.length size).map (fun i => (df.drop i).take size)

/-- `process_chunk(df_chunk, browser)` (lines 268-274): one task per url,
`asyncio.gather` returns the results positionally aligned with the tasks,
and the three result columns are merged onto the chunk's rows in order.
`f url` is the record `scrape_one` produces for `url`. -/
def process_chunk (chunk : List String) (f : String → ExtractionResult) :
    List (String × ExtractionResult) :=
  chunk.map (fun url => (url, f url))

/-- The chunk loop plus final `pd.concat` of `main_async` (297-311):
process the chunks sequentially and concatenate their results. -/
def runChunks (l : List String) (c : Nat) (f : String → ExtractionResult) :
    List (String × ExtractionResult) :=
  ((chunker l c).map (fun ch => process_chunk ch f)).flatten

-- ──────────── event predicates used by the temporal claims ────────────

/-- Is an event a block classification (line 237)? -/
def isCheckEv : Ev → Bool
  | .checkBlock _ => true
  | _ => false

/-- Is an event a navigation request (line 221)? -/
def isNavEv : Ev → Bool
  | .navReq => true
  | _ => false

/-- Is an event the `WAIT_BETWEEN_REQUESTS` jitter sleep (line 207)? -/
def isJitterEv : Ev → Bool
  | .jitter => true
  | _ => false

/-- The closed set of sentinel strings a result field may carry in place
of real data (spec section 3). -/
def sentinelVal (v : FieldVal) : Prop :=
  v = .str "N/A" ∨ v = .str "Page n'existe pas" ∨ v = .str "Error"
  ∨ v = .str "Produit avec aucune note"

-- ─────────── semaphore discipline of scrape_one (209-258) ───────────

/-- Which of the two permit/session orderings of `scrape_one` a worker
follows. `good`: the success and not-found paths, where `context.close()`
(lines 225, 229, 253) runs inside `async with sem`, so the session is
closed before the permit is released.  `bad`: the exception path, where
the `async with` releases the permit while the exception unwinds and only
then the `except` handler closes the context (lines 256-258). -/
inductive WKind where
  | good
  | bad
deriving DecidableEq

/-- Program counter of one worker attempt: before the semaphore, holding
a permit, holding with an open browser context, (good path) context closed
but permit still held, (bad path) permit released but context still open,
and finished. -/
inductive WPc where
  | idle
  | held
  | opened
  | closedS
  | released
  | done
deriving DecidableEq

/-- Does this worker currently hold a semaphore permit? -/
def holdsPermit : WKind × WPc → Bool
  | (_, .held) => true
  | (_, .opened) => true
  | (.good, .closedS) => true
  | _ => false

/-- Does this worker currently have an open browser context? -/
def sessionOpen : WKind × WPc → Bool
  | (_, .opened) => true
  | (.bad, .released) => true
  | _ => false

/-- Number of permits currently held. -/
def heldCount (ws : List (WKind × WPc)) : Nat := ws.countP holdsPermit

/-- Number of browser contexts currently open. -/
def openCount (ws : List (WKind × WPc)) : Nat := ws.countP sessionOpen

/-- One interleaving step of the workers sharing `asyncio.Semaphore(K)`:
a worker may acquire a permit only while fewer than `K` are held
(line 211), opens its context while holding the permit (line 212), and
then follows its path's close/release order. -/
inductive SemStep (K : Nat) : List (WKind × WPc) → List (WKind × WPc) → Prop
  | acquire (i : Nat) (k : WKind) {ws : List (WKind × WPc)}
      (h : ws[i]? = some (k, .idle)) (hK : heldCount ws < K) :
      SemStep K ws (ws.set i (k, .held))
  | openSession (i : Nat) (k : WKind) {ws : List (WKind × WPc)}
      (h : ws[i]? = some (k, .held)) :
      SemStep K ws (ws.set i (k, .opened))
  | closeGood (i : Nat) {ws : List (WKind × WPc)}
      (h : ws[i]? = some (.good, .opened)) :
      SemStep K ws (ws.set i (.good, .closedS))
  | releaseGood (i : Nat) {ws : List (WKind × WPc)}
      (h : ws[i]? = some (.good, .closedS)) :
      SemStep K ws (ws.set i (.good, .done))
  | releaseBad (i : Nat) {ws : List (WKind × WPc)}
      (h : ws[i]? = some (.bad, .opened)) :
      SemStep K ws (ws.set i (.bad, .released))
  | closeBad (i : Nat) {ws : List (WKind × WPc)}
      (h : ws[i]? = some (.bad, .released)) :
      SemStep K ws (ws.set i (.bad, .done))

/-- Reachability under the interleaving semantics. -/
def SemReach (K : Nat) : List (WKind × WPc) → List (WKind × WPc) → Prop :=
  Relation.ReflTransGen (SemStep K)

/-- All workers about to start their attempt. -/
def initState (kinds : List WKind) : List (WKind × WPc) :=
  kinds.map (fun k => (k, .idle))

/-- Every worker follows the close-before-release ordering. -/
def allGood (ws : List (WKind × WPc)) : Prop := ∀ w ∈ ws, w.1 = WKind.good

-- ───────────── concrete inputs used by witnesses ─────────────

/-- An attempt whose navigation raises (goto timeout). -/
def envNavRaises : AttemptEnv :=
  ⟨true, none, "", ⟨⟨false, false⟩, "t"⟩, ⟨false, false, false, none, false, none⟩,
   ⟨⟨false, false⟩, "t"⟩, ⟨false, false, false, none, false, none⟩,
   fun _ => none, ⟨false, none, none, none⟩⟩

/-- An attempt whose navigation returns HTTP status 404. -/
def env404w : AttemptEnv :=
  ⟨true, some (some 404), "product", ⟨⟨false, false⟩, "t"⟩,
   ⟨false, false, false, none, false, none⟩, ⟨⟨false, false⟩, "t"⟩,
   ⟨false, false, false, none, false, none⟩, fun _ => none, ⟨false, none, none, none⟩⟩

/-- An attempt landing on a page blocked by its title, whose recovery
environment shows neither a continue control nor a captcha image. -/
def envBlockedNothing : AttemptEnv :=
  ⟨true, some (some 200), "product", ⟨⟨false, false⟩, "verify you are human"⟩,
   ⟨false, false, false, none, false, none⟩, ⟨⟨false, false⟩, "t"⟩,
   ⟨false, false, false, none, false, none⟩, fun _ => none, ⟨false, none, none, none⟩⟩

/-- A recovery environment with neither a visible continue control nor a
visible captcha image. -/
def benvNothing : BlockEnv := ⟨false, false, false, none, false, none⟩

/-- An attempt whose navigation returns no response object
(`page.goto` gives `None`) on a page whose title matches `NOT_FOUND_RE`. -/
def envNoneResp : AttemptEnv :=
  ⟨true, some none, "page not found", ⟨⟨false, false⟩, "t"⟩,
   ⟨false, false, false, none, false, none⟩, ⟨⟨false, false⟩, "t"⟩,
   ⟨false, false, false, none, false, none⟩, fun _ => none, ⟨false, none, none, none⟩⟩

/-- An attempt whose navigation raises, used for the jitter trace. -/
def envNavRaises9 : AttemptEnv :=
  ⟨true, none, "", ⟨⟨false, false⟩, "t"⟩, ⟨false, false, false, none, false, none⟩,
   ⟨⟨false, false⟩, "t"⟩, ⟨false, false, false, none, false, none⟩,
   fun _ => none, ⟨false, none, none, none⟩⟩

-- ════════════════════════════ theorems ════════════════════════════

-- ───────────────────── chunker lemmas (C1) ─────────────────────

lemma flatten_range_chunks {α : Type} (l : List α) (C : Nat) :
    ∀ k, ((List.range k).map (fun j => (l.drop (j * C)).take C)).flatten = l.take (k * C) := by
  intro k
  induction k with
  | zero => simp
  | succ k ih =>
    rw [List.range_succ, List.map_append, List.flatten_append, ih]
    simp only [List.map_cons, List.map_nil, List.flatten_cons, List.flatten_nil,
               List.append_nil]
    rw [Nat.succ_mul, List.take_add]

lemma ceil_mul_ge (n C : Nat) (hC : 0 < C) : n ≤ (n + C - 1) / C * C := by
  by_contra h
  push_neg at h
  have h2 : (n + C - 1) / C < (n + C - 1) / C + 1 := Nat.lt_succ_self _
  rw [Nat.div_lt_iff_lt_mul hC] at h2
  have h3 : ((n + C - 1) / C + 1) * C = (n + C - 1) / C * C + C := by ring
  omega

lemma chunker_flatten {α : Type} (l : List α) (C : Nat) (hC : 0 < C) :
    (chunker l C).flatten = l := by
  unfold chunker pyRange
  rw [List.map_map]
  have he : ((fun i => (l.drop i).take C) ∘ fun j => j * C)
      = fun j => (l.drop (j * C)).take C := rfl
  rw [he, flatten_range_chunks]
  exact List.take_of_length_le (ceil_mul_ge l.length C hC)

lemma chunker_length {α : Type} (l : List α) (C : Nat) :
    (chunker l C).length = (l.length + C - 1) / C := by
  simp [chunker, pyRange]

/-- C1: for every input list of N rows and chunk size C > 0, `chunker`
produces `⌈N/C⌉` chunks (here `(N + C - 1) / C`), each of size at most C,
whose concatenation (and hence the contiguous, non-overlapping, in-order
partition) reproduces the input exactly; and the concatenation of the
per-chunk results — each chunk's results positioned by the index of its
target, as `asyncio.gather` positions them — equals mapping the per-target
worker over the original row order. -/
theorem chunk_scheduler_partition (l : List String) (C : Nat) (hC : 0 < C)
    (f : String → ExtractionResult) :
    (chunker l C).length = (l.length + C - 1) / C
    ∧ (chunker l C).flatten = l
    ∧ (∀ ch ∈ chunker l C, ch.length ≤ C)
    ∧ runChunks l C f = process_chunk l f := by
  refine ⟨chunker_length l C, chunker_flatten l C hC, ?_, ?_⟩
  · intro ch h
    unfold chunker at h
    rw [List.mem_map] at h
    obtain ⟨i, _, rfl⟩ := h
    rw [List.length_take]
    exact min_le_left _ _
  · unfold runChunks process_chunk
    have he : (fun ch => List.map (fun url => (url, f url)) ch)
        = List.map (fun url => (url, f url)) := rfl
    rw [he, ← List.map_flatten, chunker_flatten l C hC]

/-- Witness for C1 at the concrete input `["a", "b", "c"]` with C = 2. -/
theorem chunk_scheduler_partition_witness :
    (0 < 2)
    ∧ (chunker ["a", "b", "c"] 2).length = (3 + 2 - 1) / 2
    ∧ (chunker ["a", "b", "c"] 2).flatten = ["a", "b", "c"] :=
  ⟨by decide,
   (chunk_scheduler_partition ["a", "b", "c"] 2 (by decide) (fun _ => errorRecord)).1,
   (chunk_scheduler_partition ["a", "b", "c"] 2 (by decide) (fun _ => errorRecord)).2.1⟩

-- ───────────────────── classifier (C7) ─────────────────────

lemma verify_search (t : String)
    (h : strContains (caseFold t) "verify" = true
         ∨ strContains (caseFold t) "vérification" = true) :
    reSearch CAPTCHA_WORDS t = true := by
  unfold reSearch
  rw [List.any_eq_true]
  rcases h with h | h
  · exact ⟨"verify", by simp [CAPTCHA_WORDS], h⟩
  · exact ⟨"vérification", by simp [CAPTCHA_WORDS], h⟩

/-- C7: `is_page_blocked` is a pure, deterministic function of the pair
(HTML, title) — equal inputs give equal classifications — and for every
HTML body, a title containing "verify" or "vérification" (after case
folding, i.e. case-insensitively) classifies the page as blocked. -/
theorem blocked_pure_verify (html html2 : Html) (t t2 : String)
    (hh : html = html2) (ht : t = t2)
    (hv : strContains (caseFold t) "verify" = true
          ∨ strContains (caseFold t) "vérification" = true) :
    is_page_blocked html t = is_page_blocked html2 t2
    ∧ is_page_blocked html t = true := by
  subst hh ht
  refine ⟨rfl, ?_⟩
  unfold is_page_blocked
  rw [verify_search t hv]
  simp

/-- Witness for C7 at a concrete upper-case title. -/
theorem blocked_pure_verify_witness :
    is_page_blocked ⟨false, false⟩ "Please VERIFY your identity"
      = is_page_blocked ⟨false, false⟩ "Please VERIFY your identity"
    ∧ is_page_blocked ⟨false, false⟩ "Please VERIFY your identity" = true :=
  blocked_pure_verify ⟨false, false⟩ ⟨false, false⟩
    "Please VERIFY your identity" "Please VERIFY your identity"
    rfl rfl (Or.inl (by decide))

-- ───────────────────── not-found handling (C3, C10) ─────────────────────

/-- C3: in any attempt whose navigation yields a response with HTTP status
≥ 400, or whose page title matches the not-found pattern, the worker
returns the `"Page n'existe pas"` record immediately and terminally —
the attempt issues exactly one request and, when this happens on the first
attempt, the whole per-target run stops there with that record, consuming
no further retry attempts. -/
theorem notfound_immediate_sentinel (env : AttemptEnv) (envs : Nat → AttemptEnv)
    (hs : env.setupOk = true) (resp : Option Nat) (hn : env.nav = some resp)
    (h : (∃ s, resp = some s ∧ 400 ≤ s) ∨ not_found_title env.navTitle = true) :
    runAttempt env = (.returned notFoundRecord, [.navReq])
    ∧ (envs 1 = env → scrape_one envs = (notFoundRecord, [.jitter, .navReq])) := by
  have hmain : runAttempt env = (.returned notFoundRecord, [.navReq]) := by
    unfold runAttempt
    rw [hs, hn]
    simp only [Bool.not_true, Bool.false_eq_true, if_false]
    rcases h with ⟨s, rfl, hge⟩ | ht
    · simp [decide_eq_true hge]
    · rcases resp with _ | s
      · simp [ht]
      · by_cases hb : 400 ≤ s
        · simp [decide_eq_true hb]
        · simp [decide_eq_false hb, ht]
  refine ⟨hmain, fun he => ?_⟩
  show (let p := scrapeAttempts envs [1, 2, 3]; (p.1, Ev.jitter :: p.2)) = _
  rw [show scrapeAttempts envs [1, 2, 3]
      = (notFoundRecord, [Ev.navReq]) by unfold scrapeAttempts; rw [he, hmain]]

/-- Witness for C3 at a concrete 404 attempt. -/
theorem notfound_immediate_sentinel_witness :
    env404w.setupOk = true
    ∧ env404w.nav = some (some 404)
    ∧ runAttempt env404w = (.returned notFoundRecord, [.navReq])
    ∧ scrape_one (fun _ => env404w) = (notFoundRecord, [.jitter, .navReq]) := by
  have h := notfound_immediate_sentinel env404w (fun _ => env404w) rfl (some 404) rfl
    (Or.inl ⟨404, rfl, by decide⟩)
  exact ⟨rfl, rfl, h.1, h.2 rfl⟩

lemma stars_cases (d : ReviewsDom) :
    (extract_reviews_info d).1 = .str "Produit avec aucune note"
    ∨ ∃ q, (extract_reviews_info d).1 = .num q := by
  unfold extract_reviews_info
  rcases d with ⟨sec, pop, span, cnt⟩
  cases sec
  · simp
  · cases pop
    · cases span <;> simp
    · simp

lemma count_cases (d : ReviewsDom) :
    (extract_reviews_info d).2 = .str "Produit avec aucune note"
    ∨ ∃ n, (extract_reviews_info d).2 = .cnt n := by
  unfold extract_reviews_info
  rcases d with ⟨sec, pop, span, cnt⟩
  cases sec
  · simp
  · cases cnt <;> cases pop <;> cases span <;> simp

lemma mkSuccess_ne_notFound (env : AttemptEnv) : mkSuccess env ≠ notFoundRecord := by
  intro h
  have h2 : (mkSuccess env).average_stars = notFoundRecord.average_stars := by rw [h]
  rcases stars_cases env.reviews with hs | ⟨q, hs⟩ <;>
    simp [mkSuccess, notFoundRecord, hs] at h2

/-- C10: when navigation completes but yields no response object
(`page.goto` returns `None`), the attempt skips the HTTP-status-based
NOT_FOUND classification entirely: if the title matches the not-found
pattern the attempt returns the sentinel, otherwise it proceeds directly
to the block loop and extraction, and the sentinel can arise in that
attempt only via the title pattern, never via a status. -/
theorem goto_none_skips_status (env : AttemptEnv)
    (hs : env.setupOk = true) (hn : env.nav = some none) :
    (not_found_title env.navTitle = true →
       runAttempt env = (.returned notFoundRecord, [.navReq]))
    ∧ (not_found_title env.navTitle = false →
       runAttempt env = ((blockPhase env).1, .navReq :: (blockPhase env).2))
    ∧ ((runAttempt env).1 = .returned notFoundRecord →
       not_found_title env.navTitle = true) := by
  have hun : runAttempt env
      = (if not_found_title env.navTitle then (.returned notFoundRecord, [.navReq])
         else ((blockPhase env).1, .navReq :: (blockPhase env).2)) := by
    unfold runAttempt
    rw [hs, hn]
    simp
  refine ⟨fun ht => by rw [hun, if_pos ht], fun ht => by rw [hun]; simp [ht], fun hr => ?_⟩
  by_contra hne
  rw [Bool.not_eq_true] at hne
  rw [hun, if_neg (by simp [hne])] at hr
  simp only at hr
  unfold blockPhase at hr
  by_cases hb1 : is_page_blocked env.page1.html env.page1.title
  · rw [if_pos hb1] at hr
    rcases hh : handle_blocking_page env.block1 with _ | b
    · rw [hh] at hr; simp at hr
    · cases b <;> rw [hh] at hr
      · simp at hr
      · by_cases hb2 : is_page_blocked env.page2.html env.page2.title
        · rw [if_pos hb2] at hr; simp at hr
        · rw [if_neg hb2] at hr
          simp only [AttemptOutcome.returned.injEq] at hr
          exact mkSuccess_ne_notFound env hr
  · rw [if_neg hb1] at hr
    simp only [AttemptOutcome.returned.injEq] at hr
    exact mkSuccess_ne_notFound env hr

/-- Witness for C10 at a concrete attempt with `goto` returning `None`. -/
theorem goto_none_skips_status_witness :
    envNoneResp.setupOk = true
    ∧ envNoneResp.nav = some none
    ∧ runAttempt envNoneResp = (.returned notFoundRecord, [.navReq]) :=
  ⟨rfl, rfl, (goto_none_skips_status envNoneResp rfl rfl).1 (by decide)⟩

-- ───────────────────── block loop (C5) and recovery (C6) ─────────────────────

/-- C5: within one attempt the block-recovery loop runs at most 2 rounds:
the trace carries at most 2 classifications; in a round classified blocked
whose clearing attempt does not return `True` (it returns `False` or
raises), the attempt fails immediately, right at that clearing attempt;
if the first round is blocked, cleared successfully, and the re-check of
round 2 is still blocked, the attempt fails; and extraction is reached
only from a round whose classification is unblocked. -/
theorem block_recovery_two_rounds (env : AttemptEnv) :
    ((blockPhase env).2.countP isCheckEv ≤ 2)
    ∧ (is_page_blocked env.page1.html env.page1.title = true →
        handle_blocking_page env.block1 ≠ .ret true →
        blockPhase env
          = (.failed, [.checkBlock true, .clear (handle_blocking_page env.block1)]))
    ∧ (is_page_blocked env.page1.html env.page1.title = true →
        handle_blocking_page env.block1 = .ret true →
        is_page_blocked env.page2.html env.page2.title = true →
        (blockPhase env).1 = .failed)
    ∧ (∀ r, (blockPhase env).1 = .returned r →
        is_page_blocked env.page1.html env.page1.title = false
        ∨ (handle_blocking_page env.block1 = .ret true
           ∧ is_page_blocked env.page2.html env.page2.title = false)) := by
  unfold blockPhase
  by_cases hb1 : is_page_blocked env.page1.html env.page1.title
  · rw [if_pos hb1]
    rcases hh : handle_blocking_page env.block1 with _ | b
    · refine ⟨by simp [isCheckEv, List.countP_cons], fun _ _ => rfl, ?_, ?_⟩
      · intro _ hc _
        simp at hc
      · intro r hr
        simp at hr
    · cases b
      · refine ⟨by simp [isCheckEv, List.countP_cons], fun _ _ => rfl, ?_, ?_⟩
        · intro _ hc _
          simp at hc
        · intro r hr
          simp at hr
      · by_cases hb2 : is_page_blocked env.page2.html env.page2.title
        · rw [if_pos hb2]
          refine ⟨by simp [isCheckEv, List.countP_cons], ?_, fun _ _ _ => rfl, ?_⟩
          · intro _ hne
            exact absurd rfl hne
          · intro r hr
            simp at hr
        · rw [if_neg hb2]
          rw [Bool.not_eq_true] at hb2
          refine ⟨by simp [isCheckEv, List.countP_cons], ?_, ?_, ?_⟩
          · intro _ hne
            exact absurd rfl hne
          · intro _ _ hc
            rw [hc] at hb2
            cases hb2
          · intro r _
            exact Or.inr ⟨rfl, hb2⟩
  · rw [if_neg hb1]
    rw [Bool.not_eq_true] at hb1
    refine ⟨by simp [isCheckEv, List.countP_cons], ?_, ?_, fun r _ => Or.inl hb1⟩
    · intro hc
      rw [hc] at hb1
      cases hb1
    · intro hc
      rw [hc] at hb1
      cases hb1

/-- Witness for C5 at a concrete blocked attempt whose clearing fails. -/
theorem block_recovery_two_rounds_witness :
    is_page_blocked envBlockedNothing.page1.html envBlockedNothing.page1.title = true
    ∧ blockPhase envBlockedNothing
        = (.failed, [.checkBlock true, .clear (.ret false)]) := by
  have h := (block_recovery_two_rounds envBlockedNothing).2.1 (by decide) (by decide)
  exact ⟨by decide, h⟩

/-- C6, counterexample: on a page classified blocked (here by its title)
where neither a visible continue control nor a visible CAPTCHA image
exists, `handle_blocking_page` returns plain `False` — the same value as a
clearing failure, with no distinct "nothing to do" outcome — and the
calling worker raises: the attempt fails instead of being treated as "not
blocked / no recovery needed". -/
theorem recovery_nothing_counterexample :
    benvNothing.continueVisible = false
    ∧ benvNothing.captchaVisible = false
    ∧ handle_blocking_page benvNothing = .ret false
    ∧ envBlockedNothing.block1 = benvNothing
    ∧ is_page_blocked envBlockedNothing.page1.html envBlockedNothing.page1.title = true
    ∧ (blockPhase envBlockedNothing).1 = .failed := by
  refine ⟨rfl, rfl, rfl, rfl, by decide, rfl⟩

/-- C6, amended: when neither a visible continue control nor a visible
CAPTCHA image exists, `handle_blocking_page` logs "nothing to do" but
returns `False`, indistinguishable from a clearing failure; since it is
only invoked on a page already classified blocked, the calling worker then
raises a recoverable failure for the attempt. -/
theorem recovery_nothing_amended :
    (∀ e : BlockEnv, e.continueVisible = false → e.captchaVisible = false →
       handle_blocking_page e = .ret false)
    ∧ (∀ env : AttemptEnv, is_page_blocked env.page1.html env.page1.title = true →
       handle_blocking_page env.block1 = .ret false → (blockPhase env).1 = .failed) := by
  constructor
  · intro e h1 h2
    unfold handle_blocking_page
    rw [h1, h2]
    simp
  · intro env hb hh
    unfold blockPhase
    rw [if_pos hb, hh]

/-- Witness for the amended C6 at the concrete recovery environment. -/
theorem recovery_nothing_amended_witness :
    handle_blocking_page benvNothing = .ret false
    ∧ (blockPhase envBlockedNothing).1 = .failed :=
  ⟨recovery_nothing_amended.1 benvNothing rfl rfl,
   recovery_nothing_amended.2 envBlockedNothing (by decide) rfl⟩

-- ───────────────────── trace lemmas (C2, C9) ─────────────────────

lemma blockPhase_no_nav (env : AttemptEnv) : (blockPhase env).2.countP isNavEv = 0 := by
  unfold blockPhase
  by_cases hb1 : is_page_blocked env.page1.html env.page1.title
  · rw [if_pos hb1]
    rcases handle_blocking_page env.block1 with _ | b
    · simp [isNavEv, List.countP_cons]
    · cases b
      · simp [isNavEv, List.countP_cons]
      · by_cases hb2 : is_page_blocked env.page2.html env.page2.title
        · rw [if_pos hb2]; simp [isNavEv, List.countP_cons]
        · rw [if_neg hb2]; simp [isNavEv, List.countP_cons]
  · rw [if_neg hb1]; simp [isNavEv, List.countP_cons]

lemma blockPhase_no_jitter (env : AttemptEnv) : (blockPhase env).2.countP isJitterEv = 0 := by
  unfold blockPhase
  by_cases hb1 : is_page_blocked env.page1.html env.page1.title
  · rw [if_pos hb1]
    rcases handle_blocking_page env.block1 with _ | b
    · simp [isJitterEv, List.countP_cons]
    · cases b
      · simp [isJitterEv, List.countP_cons]
      · by_cases hb2 : is_page_blocked env.page2.html env.page2.title
        · rw [if_pos hb2]; simp [isJitterEv, List.countP_cons]
        · rw [if_neg hb2]; simp [isJitterEv, List.countP_cons]
  · rw [if_neg hb1]; simp [isJitterEv, List.countP_cons]

lemma runAttempt_nav_le (env : AttemptEnv) : (runAttempt env).2.countP isNavEv ≤ 1 := by
  unfold runAttempt
  by_cases hs : env.setupOk
  · rw [hs]
    rcases env.nav with _ | resp
    · simp [isNavEv]
    · simp only [Bool.not_true, Bool.false_eq_true, if_false]
      rcases resp with _ | s
      · by_cases ht : not_found_title env.navTitle <;>
          simp [ht, isNavEv, List.countP_cons, blockPhase_no_nav]
      · by_cases hb : (400 ≤ s)
        · simp [decide_eq_true hb, isNavEv, List.countP_cons]
        · by_cases ht : not_found_title env.navTitle <;>
            simp [decide_eq_false hb, ht, isNavEv, List.countP_cons, blockPhase_no_nav]
  · rw [Bool.not_eq_true] at hs
    rw [hs]
    simp [isNavEv]

lemma runAttempt_no_jitter (env : AttemptEnv) : (runAttempt env).2.countP isJitterEv = 0 := by
  unfold runAttempt
  by_cases hs : env.setupOk
  · rw [hs]
    rcases env.nav with _ | resp
    · simp [isJitterEv]
    · simp only [Bool.not_true, Bool.false_eq_true, if_false]
      rcases resp with _ | s
      · by_cases ht : not_found_title env.navTitle <;>
          simp [ht, isJitterEv, List.countP_cons, blockPhase_no_jitter]
      · by_cases hb : (400 ≤ s)
        · simp [decide_eq_true hb, isJitterEv, List.countP_cons]
        · by_cases ht : not_found_title env.navTitle <;>
            simp [decide_eq_false hb, ht, isJitterEv, List.countP_cons, blockPhase_no_jitter]
  · rw [Bool.not_eq_true] at hs
    rw [hs]
    simp [isJitterEv]

lemma scrapeAttempts_nav_le (envs : Nat → AttemptEnv) :
    ∀ l : List Nat, (scrapeAttempts envs l).2.countP isNavEv ≤ l.length := by
  intro l
  induction l with
  | nil => simp [scrapeAttempts]
  | cons a rest ih =>
    unfold scrapeAttempts
    rcases hra : runAttempt (envs a) with ⟨o, evs⟩
    have hevs : evs.countP isNavEv ≤ 1 := by
      have := runAttempt_nav_le (envs a)
      rw [hra] at this
      exact this
    cases o
    · dsimp only
      simp only [List.length_cons]
      omega
    · dsimp only
      by_cases hlt : a < MAX_RETRIES
      · rw [if_pos hlt]
        dsimp only
        simp only [List.countP_append, List.countP_cons, List.length_cons]
        have hb : (if isNavEv Ev.backoff = true then 1 else 0) = 0 := rfl
        rw [hb]
        omega
      · rw [if_neg hlt]
        dsimp only
        simp only [List.length_cons]
        omega

lemma scrapeAttempts_no_jitter (envs : Nat → AttemptEnv) :
    ∀ l : List Nat, (scrapeAttempts envs l).2.countP isJitterEv = 0 := by
  intro l
  induction l with
  | nil => simp [scrapeAttempts]
  | cons a rest ih =>
    unfold scrapeAttempts
    rcases hra : runAttempt (envs a) with ⟨o, evs⟩
    have hevs : evs.countP isJitterEv = 0 := by
      have := runAttempt_no_jitter (envs a)
      rw [hra] at this
      exact this
    cases o
    · dsimp only
      simpa using hevs
    · dsimp only
      by_cases hlt : a < MAX_RETRIES
      · rw [if_pos hlt]
        dsimp only
        simp only [List.countP_append, List.countP_cons]
        have hb : (if isJitterEv Ev.backoff = true then 1 else 0) = 0 := rfl
        rw [hb]
        omega
      · rw [if_neg hlt]
        dsimp only
        simpa using hevs

/-- C2: the per-target worker is a total function of its attempt
environments — it always returns a record — its trace issues at most
`MAX_RETRIES` requests, and when every one of the `MAX_RETRIES` attempts
fails, the returned record is the all-`"Error"` exhaustion sentinel. -/
theorem worker_no_escape_exhaustion (envs : Nat → AttemptEnv) :
    ((scrape_one envs).2.countP isNavEv ≤ MAX_RETRIES)
    ∧ ((∀ i, 1 ≤ i → i ≤ MAX_RETRIES → (runAttempt (envs i)).1 = .failed) →
        (scrape_one envs).1 = errorRecord) := by
  constructor
  · show (Ev.jitter :: (scrapeAttempts envs (pyRange1 MAX_RETRIES)).2).countP isNavEv
        ≤ MAX_RETRIES
    rw [List.countP_cons]
    have hb : (if isNavEv Ev.jitter = true then 1 else 0) = 0 := rfl
    rw [hb]
    have h := scrapeAttempts_nav_le envs (pyRange1 MAX_RETRIES)
    have hl : (pyRange1 MAX_RETRIES).length = MAX_RETRIES := rfl
    omega
  · intro h
    have h1 := h 1 (by decide) (by decide)
    have h2 := h 2 (by decide) (by decide)
    have h3 := h 3 (by decide) (by decide)
    show (scrapeAttempts envs [1, 2, 3]).1 = errorRecord
    rcases hr1 : runAttempt (envs 1) with ⟨o1, t1⟩
    rcases hr2 : runAttempt (envs 2) with ⟨o2, t2⟩
    rcases hr3 : runAttempt (envs 3) with ⟨o3, t3⟩
    rw [hr1] at h1; rw [hr2] at h2; rw [hr3] at h3
    simp only at h1 h2 h3
    subst h1 h2 h3
    unfold scrapeAttempts
    rw [hr1]
    dsimp only
    rw [if_pos (by decide : 1 < MAX_RETRIES)]
    unfold scrapeAttempts
    rw [hr2]
    dsimp only
    rw [if_pos (by decide : 2 < MAX_RETRIES)]
    unfold scrapeAttempts
    rw [hr3]
    dsimp only
    rw [if_neg (by decide : ¬ 3 < MAX_RETRIES)]

/-- Witness for C2: a target whose navigation raises on every attempt. -/
theorem worker_no_escape_exhaustion_witness :
    (∀ i, 1 ≤ i → i ≤ MAX_RETRIES →
       (runAttempt ((fun _ => envNavRaises) i)).1 = .failed)
    ∧ (scrape_one (fun _ => envNavRaises)).1 = errorRecord :=
  ⟨fun _ _ _ => rfl,
   (worker_no_escape_exhaustion (fun _ => envNavRaises)).2 (fun _ _ _ => rfl)⟩

/-- C9, counterexample: with every attempt failing at navigation, the
worker's trace holds three requests but a single jitter sleep, at the very
start — attempts 2 and 3 are preceded by the backoff sleep, not by a
jitter — refuting that the jitter sleep precedes the request in each
attempt rather than once per target. -/
theorem jitter_once_counterexample :
    (scrape_one (fun _ => envNavRaises9)).2
      = [.jitter, .navReq, .backoff, .navReq, .backoff, .navReq]
    ∧ (scrape_one (fun _ => envNavRaises9)).2.countP isNavEv = 3
    ∧ (scrape_one (fun _ => envNavRaises9)).2.countP isJitterEv = 1 := by
  refine ⟨rfl, rfl, rfl⟩

/-- C9, amended: the jitter sleep runs exactly once per target, as the
very first event of the worker, before the first attempt's request;
no later attempt is preceded by a jitter sleep. -/
theorem jitter_once_amended (envs : Nat → AttemptEnv) :
    ∃ t, (scrape_one envs).2 = Ev.jitter :: t ∧ t.countP isJitterEv = 0 :=
  ⟨(scrapeAttempts envs (pyRange1 MAX_RETRIES)).2, rfl,
   scrapeAttempts_no_jitter envs _⟩

-- ───────────────────── result shape (C4) ─────────────────────

lemma blockPhase_cases (env : AttemptEnv) :
    (blockPhase env).1 = .failed ∨ (blockPhase env).1 = .returned (mkSuccess env) := by
  unfold blockPhase
  by_cases hb1 : is_page_blocked env.page1.html env.page1.title
  · rw [if_pos hb1]
    rcases handle_blocking_page env.block1 with _ | b
    · exact Or.inl rfl
    · cases b
      · exact Or.inl rfl
      · by_cases hb2 : is_page_blocked env.page2.html env.page2.title
        · rw [if_pos hb2]; exact Or.inl rfl
        · rw [if_neg hb2]; exact Or.inr rfl
  · rw [if_neg hb1]; exact Or.inr rfl

lemma runAttempt_cases (env : AttemptEnv) :
    (runAttempt env).1 = .failed
    ∨ (runAttempt env).1 = .returned notFoundRecord
    ∨ (runAttempt env).1 = .returned (mkSuccess env) := by
  unfold runAttempt
  by_cases hs : env.setupOk
  · rw [hs]
    rcases env.nav with _ | resp
    · exact Or.inl rfl
    · simp only [Bool.not_true, Bool.false_eq_true, if_false]
      rcases resp with _ | s
      · by_cases ht : not_found_title env.navTitle
        · simp [ht]
        · simp only [ht, Bool.false_eq_true, if_false]
          rcases blockPhase_cases env with h | h
          · exact Or.inl h
          · exact Or.inr (Or.inr h)
      · by_cases hb : (400 ≤ s)
        · simp [decide_eq_true hb]
        · simp only [decide_eq_false hb, Bool.false_eq_true, if_false]
          by_cases ht : not_found_title env.navTitle
          · simp [ht]
          · simp only [ht, Bool.false_eq_true, if_false]
            rcases blockPhase_cases env with h | h
            · exact Or.inl h
            · exact Or.inr (Or.inr h)
  · rw [Bool.not_eq_true] at hs
    rw [hs]
    exact Or.inl rfl

lemma scrapeAttempts_cases (envs : Nat → AttemptEnv) :
    ∀ l : List Nat, (scrapeAttempts envs l).1 = errorRecord
      ∨ (scrapeAttempts envs l).1 = notFoundRecord
      ∨ ∃ env, (scrapeAttempts envs l).1 = mkSuccess env := by
  intro l
  induction l with
  | nil => exact Or.inl rfl
  | cons a rest ih =>
    unfold scrapeAttempts
    rcases hra : runAttempt (envs a) with ⟨o, evs⟩
    have hc := runAttempt_cases (envs a)
    rw [hra] at hc
    simp only at hc
    cases o with
    | failed =>
      dsimp only
      by_cases hlt : a < MAX_RETRIES
      · rw [if_pos hlt]
        dsimp only
        exact ih
      · rw [if_neg hlt]
        exact Or.inl rfl
    | returned r =>
      dsimp only
      rcases hc with h | h | h
      · cases h
      · rw [AttemptOutcome.returned.injEq] at h
        exact Or.inr (Or.inl h)
      · rw [AttemptOutcome.returned.injEq] at h
        exact Or.inr (Or.inr ⟨envs a, h⟩)

/-- C4: every record the worker returns is fully populated: the
availability field is always a string (extracted text or a sentinel), the
stars field is a number or a sentinel of the closed set, the reviews field
is an integer or a sentinel of the closed set; and the record is either a
successful extraction or an all-equal sentinel record (`"Page n'existe
pas"` or `"Error"` in all three fields). -/
theorem result_fully_populated (envs : Nat → AttemptEnv) :
    ((∃ s, (scrape_one envs).1.availability = .str s)
     ∧ ((∃ q, (scrape_one envs).1.average_stars = .num q)
        ∨ sentinelVal (scrape_one envs).1.average_stars)
     ∧ ((∃ n, (scrape_one envs).1.total_reviews = .cnt n)
        ∨ sentinelVal (scrape_one envs).1.total_reviews))
    ∧ ((∃ env, (scrape_one envs).1 = mkSuccess env)
       ∨ ∃ s, (s = "Page n'existe pas" ∨ s = "Error")
              ∧ (scrape_one envs).1 = ⟨.str s, .str s, .str s⟩) := by
  have hc : (scrape_one envs).1 = errorRecord ∨ (scrape_one envs).1 = notFoundRecord
      ∨ ∃ env, (scrape_one envs).1 = mkSuccess env :=
    scrapeAttempts_cases envs (pyRange1 MAX_RETRIES)
  rcases hc with h | h | ⟨env, h⟩ <;> rw [h]
  · exact ⟨⟨⟨"Error", rfl⟩, Or.inr (Or.inr (Or.inr (Or.inl rfl))),
      Or.inr (Or.inr (Or.inr (Or.inl rfl)))⟩,
      Or.inr ⟨"Error", Or.inr rfl, rfl⟩⟩
  · exact ⟨⟨⟨"Page n'existe pas", rfl⟩, Or.inr (Or.inr (Or.inl rfl)),
      Or.inr (Or.inr (Or.inl rfl))⟩,
      Or.inr ⟨"Page n'existe pas", Or.inl rfl, rfl⟩⟩
  · refine ⟨⟨⟨extract_availability env.avail, rfl⟩, ?_, ?_⟩, Or.inl ⟨env, rfl⟩⟩
    · rcases stars_cases env.reviews with hs | ⟨q, hs⟩
      · exact Or.inr (Or.inr (Or.inr (Or.inr (by simp [mkSuccess, hs]))))
      · exact Or.inl ⟨q, by simp [mkSuccess, hs]⟩
    · rcases count_cases env.reviews with hs | ⟨n, hs⟩
      · exact Or.inr (Or.inr (Or.inr (Or.inr (by simp [mkSuccess, hs]))))
      · exact Or.inl ⟨n, by simp [mkSuccess, hs]⟩

-- ───────────────────── concurrency limiter (C8) ─────────────────────

lemma countP_set_eq {A : Type} (p : A → Bool) (l : List A) (i : Nat) (a b : A)
    (h : l[i]? = some a) :
    (l.set i b).countP p + (if p a then 1 else 0) = l.countP p + (if p b then 1 else 0) := by
  rw [List.getElem?_eq_some] at h
  obtain ⟨hlt, hget⟩ := h
  have hset := List.countP_set p l i b hlt
  rw [hget] at hset
  by_cases hp : p a = true
  · have hpos : 0 < l.countP p :=
      List.countP_pos_iff.mpr ⟨a, hget ▸ List.getElem_mem hlt, hp⟩
    rw [hset]
    simp only [hp, if_true]
    omega
  · rw [hset]
    rw [Bool.not_eq_true] at hp
    simp only [hp, Bool.false_eq_true, if_false]
    omega

lemma mem_of_getElemQ {A : Type} {l : List A} {i : Nat} {a : A}
    (h : l[i]? = some a) : a ∈ l := by
  rw [List.getElem?_eq_some] at h
  obtain ⟨hlt, hget⟩ := h
  exact hget ▸ List.getElem_mem hlt

lemma semStep_held {K : Nat} {ws ws' : List (WKind × WPc)} (st : SemStep K ws ws')
    (h : heldCount ws ≤ K) : heldCount ws' ≤ K := by
  cases st with
  | acquire i k hg hK =>
    have hc := countP_set_eq holdsPermit ws i (k, .idle) (k, .held) hg
    have h1 : holdsPermit (k, WPc.idle) = false := by cases k <;> rfl
    have h2 : holdsPermit (k, WPc.held) = true := by cases k <;> rfl
    rw [h1, h2] at hc
    simp only [Bool.false_eq_true, if_false, if_true] at hc
    unfold heldCount at *
    omega
  | openSession i k hg =>
    have hc := countP_set_eq holdsPermit ws i (k, .held) (k, .opened) hg
    have h1 : holdsPermit (k, WPc.held) = true := by cases k <;> rfl
    have h2 : holdsPermit (k, WPc.opened) = true := by cases k <;> rfl
    rw [h1, h2] at hc
    unfold heldCount at *
    omega
  | closeGood i hg =>
    have hc := countP_set_eq holdsPermit ws i (.good, .opened) (.good, .closedS) hg
    simp only [show holdsPermit (WKind.good, WPc.opened) = true from rfl,
               show holdsPermit (WKind.good, WPc.closedS) = true from rfl] at hc
    unfold heldCount at *
    omega
  | releaseGood i hg =>
    have hc := countP_set_eq holdsPermit ws i (.good, .closedS) (.good, .done) hg
    simp only [show holdsPermit (WKind.good, WPc.closedS) = true from rfl,
               show holdsPermit (WKind.good, WPc.done) = false from rfl,
               Bool.false_eq_true, if_false, if_true] at hc
    unfold heldCount at *
    omega
  | releaseBad i hg =>
    have hc := countP_set_eq holdsPermit ws i (.bad, .opened) (.bad, .released) hg
    simp only [show holdsPermit (WKind.bad, WPc.opened) = true from rfl,
               show holdsPermit (WKind.bad, WPc.released) = false from rfl,
               Bool.false_eq_true, if_false, if_true] at hc
    unfold heldCount at *
    omega
  | closeBad i hg =>
    have hc := countP_set_eq holdsPermit ws i (.bad, .released) (.bad, .done) hg
    simp only [show holdsPermit (WKind.bad, WPc.released) = false from rfl,
               show holdsPermit (WKind.bad, WPc.done) = false from rfl,
               Bool.false_eq_true, if_false] at hc
    unfold heldCount at *
    omega

lemma semStep_allGood {K : Nat} {ws ws' : List (WKind × WPc)} (st : SemStep K ws ws')
    (h : allGood ws) : allGood ws' := by
  cases st with
  | acquire i k hg hK =>
    intro w hw
    rcases List.mem_or_eq_of_mem_set hw with h1 | h1
    · exact h w h1
    · have hk := h _ (mem_of_getElemQ hg)
      rw [h1]
      exact hk
  | openSession i k hg =>
    intro w hw
    rcases List.mem_or_eq_of_mem_set hw with h1 | h1
    · exact h w h1
    · have hk := h _ (mem_of_getElemQ hg)
      rw [h1]
      exact hk
  | closeGood i hg =>
    intro w hw
    rcases List.mem_or_eq_of_mem_set hw with h1 | h1
    · exact h w h1
    · rw [h1]
  | releaseGood i hg =>
    intro w hw
    rcases List.mem_or_eq_of_mem_set hw with h1 | h1
    · exact h w h1
    · rw [h1]
  | releaseBad i hg =>
    have hk := h _ (mem_of_getElemQ hg)
    cases hk
  | closeBad i hg =>
    have hk := h _ (mem_of_getElemQ hg)
    cases hk

lemma open_le_held_of_allGood (ws : List (WKind × WPc)) (h : allGood ws) :
    openCount ws ≤ heldCount ws := by
  apply List.countP_mono_left
  intro w hw hopen
  have hk := h w hw
  rcases w with ⟨k, pc⟩
  simp only at hk
  subst hk
  cases pc
  · simp [sessionOpen] at hopen
  · simp [sessionOpen] at hopen
  · rfl
  · simp [sessionOpen] at hopen
  · simp [sessionOpen] at hopen
  · simp [sessionOpen] at hopen

/-- C8, counterexample: with capacity K = 1 and two workers, of which the
first follows the exception path (where `async with sem` releases the
permit before the `except` handler closes the context), the interleaving
that lets the second worker acquire and open during that window is
reachable and leaves 2 browser contexts open at once — more than K. -/
theorem limiter_overshoot_counterexample :
    SemReach 1 (initState [WKind.bad, WKind.good])
      [(WKind.bad, WPc.released), (WKind.good, WPc.opened)]
    ∧ openCount [(WKind.bad, WPc.released), (WKind.good, WPc.opened)] = 2
    ∧ 1 < openCount [(WKind.bad, WPc.released), (WKind.good, WPc.opened)] := by
  refine ⟨?_, rfl, by decide⟩
  have s1 : SemStep 1 [(WKind.bad, WPc.idle), (WKind.good, WPc.idle)]
      [(WKind.bad, WPc.held), (WKind.good, WPc.idle)] := by
    have h := @SemStep.acquire 1 0 WKind.bad
      [(WKind.bad, WPc.idle), (WKind.good, WPc.idle)] rfl (by decide)
    simpa using h
  have s2 : SemStep 1 [(WKind.bad, WPc.held), (WKind.good, WPc.idle)]
      [(WKind.bad, WPc.opened), (WKind.good, WPc.idle)] := by
    have h := @SemStep.openSession 1 0 WKind.bad
      [(WKind.bad, WPc.held), (WKind.good, WPc.idle)] rfl
    simpa using h
  have s3 : SemStep 1 [(WKind.bad, WPc.opened), (WKind.good, WPc.idle)]
      [(WKind.bad, WPc.released), (WKind.good, WPc.idle)] := by
    have h := @SemStep.releaseBad 1 0
      [(WKind.bad, WPc.opened), (WKind.good, WPc.idle)] rfl
    simpa using h
  have s4 : SemStep 1 [(WKind.bad, WPc.released), (WKind.good, WPc.idle)]
      [(WKind.bad, WPc.released), (WKind.good, WPc.held)] := by
    have h := @SemStep.acquire 1 1 WKind.good
      [(WKind.bad, WPc.released), (WKind.good, WPc.idle)] rfl (by decide)
    simpa using h
  have s5 : SemStep 1 [(WKind.bad, WPc.released), (WKind.good, WPc.held)]
      [(WKind.bad, WPc.released), (WKind.good, WPc.opened)] := by
    have h := @SemStep.openSession 1 1 WKind.good
      [(WKind.bad, WPc.released), (WKind.good, WPc.held)] rfl
    simpa using h
  exact Relation.ReflTransGen.head s1 (Relation.ReflTransGen.head s2
    (Relation.ReflTransGen.head s3 (Relation.ReflTransGen.head s4
      (Relation.ReflTransGen.head s5 Relation.ReflTransGen.refl))))

lemma semReach_held_le (K : Nat) (kinds : List WKind)
    (s : List (WKind × WPc)) (hr : SemReach K (initState kinds) s) :
    heldCount s ≤ K := by
  have hinit : heldCount (initState kinds) = 0 := by
    rw [heldCount, List.countP_eq_zero]
    intro w hw
    rw [initState, List.mem_map] at hw
    obtain ⟨k, hk, rfl⟩ := hw
    cases k <;> simp [holdsPermit]
  induction hr with
  | refl => omega
  | tail hr' st ih => exact semStep_held st ih

lemma semReach_allGood (K : Nat) (kinds : List WKind)
    (s : List (WKind × WPc)) (hg : ∀ k ∈ kinds, k = WKind.good)
    (hr : SemReach K (initState kinds) s) : allGood s := by
  induction hr with
  | refl =>
    intro w hw
    rw [initState, List.mem_map] at hw
    obtain ⟨k, hk, rfl⟩ := hw
    exact hg k hk
  | tail hr' st ih => exact semStep_allGood st ih

/-- C8, amended: in every reachable state the semaphore admits at most K
permit holders; and in runs where every worker follows the success or
not-found ordering — context closed before the permit is released — at
most K browser contexts are ever open simultaneously.  (On the exception
path the context is closed only after the permit is released, so the
session bound can be exceeded there, as the counterexample shows.) -/
theorem limiter_bound_amended (K : Nat) (kinds : List WKind)
    (s : List (WKind × WPc)) (hr : SemReach K (initState kinds) s) :
    heldCount s ≤ K
    ∧ ((∀ k ∈ kinds, k = WKind.good) → openCount s ≤ K) := by
  refine ⟨semReach_held_le K kinds s hr, fun hg => ?_⟩
  calc openCount s ≤ heldCount s :=
        open_le_held_of_allGood s (semReach_allGood K kinds s hg hr)
    _ ≤ K := semReach_held_le K kinds s hr

/-- Witness for the amended C8: one close-before-release worker, capacity
1, after acquiring and opening its session. -/
theorem limiter_bound_amended_witness :
    heldCount [(WKind.good, WPc.opened)] ≤ 1
    ∧ openCount [(WKind.good, WPc.opened)] ≤ 1 := by
  have hreach : SemReach 1 (initState [WKind.good]) [(WKind.good, WPc.opened)] := by
    have s1 : SemStep 1 [(WKind.good, WPc.idle)] [(WKind.good, WPc.held)] := by
      have h := @SemStep.acquire 1 0 WKind.good
        [(WKind.good, WPc.idle)] rfl (by decide)
      simpa using h
    have s2 : SemStep 1 [(WKind.good, WPc.held)] [(WKind.good, WPc.opened)] := by
      have h := @SemStep.openSession 1 0 WKind.good
        [(WKind.good, WPc.held)] rfl
      simpa using h
    exact Relation.ReflTransGen.head s1
      (Relation.ReflTransGen.head s2 Relation.ReflTransGen.refl)
  have h := limiter_bound_amended 1 [WKind.good] [(WKind.good, WPc.opened)] hreach
  exact ⟨h.1, h.2 (fun k hk => List.mem_singleton.mp hk)⟩
